import Mathlib

/-!
Shallow embedding of `src/termine-fe/src/App.js` (covid19-teststation-termine
front-end). The React component's `useState` fields become a Lean structure
`AppState`; each event handler becomes a pure state-transition function taking
the outcome of the HTTP call it performs as an explicit argument; the sequence
of API calls a handler issues is modelled separately as a call trace; the two
`useEffect` timers are modelled as a small create/clear timer system.
-/

namespace Termine

/-- `INFOBOX_STATES` from `./utils`, with the four tags used in App.js. -/
inductive InfoboxTag where
  | INITIAL
  | FORM_INPUT
  | APPOINTMENT_SUCCESS
  | ERROR
deriving DecidableEq, Repr

/-- The `infoboxState` object `{ state, msg }`. -/
structure InfoboxState where
  state : InfoboxTag
  msg : String
deriving DecidableEq, Repr

/-- A selected or booked appointment `{ startDateTime, lengthMin }`. -/
structure Appointment where
  startDateTime : String
  lengthMin : Int
deriving DecidableEq, Repr

/-- The `formState` object `{ firstName, name, phone, office }`. -/
structure FormState where
  firstName : String
  name : String
  phone : String
  office : String
deriving DecidableEq, Repr

/-- The `TAB` constant: `book` or `booked`. -/
inductive Tab where
  | BOOK
  | BOOKED
deriving DecidableEq, Repr

/-- Opaque slot record: App.js stores `response.data.slots` without inspecting it. -/
structure Slot where
  raw : String
deriving DecidableEq, Repr

/-- Opaque coupon data: App.js stores `response.data.coupons` without inspecting it. -/
structure Coupons where
  raw : String
deriving DecidableEq, Repr

/-- Opaque booked-appointment record from `Api.fetchBooked`. -/
structure BookedEntry where
  raw : String
deriving DecidableEq, Repr

/-- A rejected HTTP promise; App.js reads `error.response.status`. -/
structure HttpError where
  status : Nat
deriving DecidableEq, Repr

/-- A resolved HTTP response with `status` and `data`, as used by
`getSlotListData` / `getBookedListData`. -/
structure HttpResponse (α : Type) where
  status : Nat
  data : α
deriving DecidableEq, Repr

/-- `response.data` of `Api.fetchSlots`: `{ slots, coupons }`. -/
structure SlotsPayload where
  slots : List Slot
  coupons : Coupons
deriving DecidableEq, Repr

/-- `response.data` of `Api.book`: `{ secret, time_slot, slot_length_min }`. -/
structure BookResponse where
  secret : String
  time_slot : String
  slot_length_min : Int
deriving DecidableEq, Repr

/-- The component's `useState` fields (App.js lines 26-54). Dates are opaque
numeric timestamps. -/
structure AppState where
  triggerRefresh : Bool
  selectedAppointment : Appointment
  bookedAppointment : Appointment
  showSpinner : Bool
  freeSlotList : Option (List Slot)
  coupons : Option Coupons
  claimToken : String
  startDateTime : String
  focusOnList : Bool
  infoboxState : InfoboxState
  formState : FormState
  currentTab : Tab
  bookedList : List BookedEntry
  startDate : Nat
  endDate : Nat
deriving DecidableEq, Repr

/-- The initial state of every `useState` hook (`showSpinner` starts at the
tracker's `promiseInProgress`, passed in; dates start at `new Date()`). -/
def initState (promiseInProgress : Bool) (now : Nat) : AppState where
  triggerRefresh := true
  selectedAppointment := ⟨"", 0⟩
  bookedAppointment := ⟨"", 0⟩
  showSpinner := promiseInProgress
  freeSlotList := none
  coupons := none
  claimToken := ""
  startDateTime := ""
  focusOnList := true
  infoboxState := ⟨.INITIAL, ""⟩
  formState := ⟨"", "", "", ""⟩
  currentTab := .BOOK
  bookedList := []
  startDate := now
  endDate := now

/-- Error message shown when the claim or booking call fails with HTTP 410. -/
def msg410 : String :=
  "Leider ist der Termin inzwischen nicht mehr buchbar, bitte einen anderen Termin wählen."

/-- Generic error message for any other claim/booking failure. -/
def msgGeneric : String :=
  "Ein unbekannter Fehler ist aufgetreten, bitte Seite neu laden."

/-- The error branch shared by `claimAppointment` and `onBook`:
`error.response.status === 410 ? ... : ...`. -/
def errorMessage (status : Nat) : String :=
  if status = 410 then msg410 else msgGeneric

/-- `claimAppointment` (App.js lines 126-164) as a state transition. The first
outcome argument is the result of the optional `Api.unClaimSlot(claimToken)`
call, whose `.catch` is empty so it influences nothing; the second is the
result of `Api.claimSlot(startDateTime)` whose `response.data` is the new
claim token. -/
def claimAppointment (s : AppState) (startDateTime : String) (slotLengthMin : Int)
    (_unclaimResult : Except HttpError Unit)
    (claimResult : Except HttpError String) : AppState :=
  match claimResult with
  | .ok token =>
      { s with
        infoboxState := ⟨.FORM_INPUT, ""⟩
        startDateTime := startDateTime
        selectedAppointment := ⟨startDateTime, slotLengthMin⟩
        claimToken := token
        formState := { s.formState with firstName := "", name := "", phone := "" }
        focusOnList := false }
  | .error e =>
      { s with
        infoboxState := ⟨.ERROR, errorMessage e.status⟩
        startDateTime := ""
        claimToken := ""
        focusOnList := true }

/-- The API calls a handler issues, in order. -/
inductive ApiCall where
  | unClaimSlot (token : String)
  | claimSlot (startDateTime : String)
  | book
  | fetchSlots
  | fetchBooked (isoStart isoEnd : Nat)
  | logout
deriving DecidableEq, Repr

/-- The calls `claimAppointment` issues: `Api.unClaimSlot(claimToken)` first,
but only `if (claimToken !== "")`, then `Api.claimSlot(startDateTime)`. -/
def claimAppointmentCalls (s : AppState) (startDateTime : String) : List ApiCall :=
  (if s.claimToken ≠ "" then [ApiCall.unClaimSlot s.claimToken] else [])
    ++ [ApiCall.claimSlot startDateTime]

/-- `onBook` (App.js lines 166-193) as a state transition on the outcome of
`Api.book(data)`. -/
def onBook (s : AppState) (result : Except HttpError BookResponse) : AppState :=
  match result with
  | .ok r =>
      { s with
        infoboxState := ⟨.APPOINTMENT_SUCCESS, r.secret⟩
        startDateTime := r.time_slot
        bookedAppointment := ⟨r.time_slot, r.slot_length_min⟩
        claimToken := ""
        focusOnList := true }
  | .error e =>
      { s with
        infoboxState := ⟨.ERROR, errorMessage e.status⟩
        startDateTime := ""
        claimToken := ""
        focusOnList := true }

/-- `onCancelBooking` (App.js lines 195-216) as a state transition on the
outcome of `Api.unClaimSlot(claimToken)`; the `.catch` only does
`console.error(error)` and changes no state. -/
def onCancelBooking (s : AppState) (result : Except HttpError Unit) : AppState :=
  match result with
  | .ok _ =>
      { s with
        infoboxState := ⟨.INITIAL, ""⟩
        startDateTime := ""
        claimToken := ""
        focusOnList := true
        formState := { s.formState with firstName := "", name := "", phone := "" } }
  | .error _ => s

/-- The single call `onCancelBooking` issues, with the stored token. -/
def onCancelBookingCalls (s : AppState) : List ApiCall :=
  [ApiCall.unClaimSlot s.claimToken]

/-- `logout` (App.js lines 218-220): fires `Api.logout()` and touches no state,
whatever the call's outcome. -/
def logoutStep (s : AppState) (_result : Except HttpError Unit) : AppState :=
  s

/-- `getSlotListData` (App.js lines 56-67): on a resolved response, update
`freeSlotList` and `coupons` only when `response.status === 200`; the `.catch`
is an empty TODO. -/
def getSlotListData (s : AppState)
    (result : Except HttpError (HttpResponse SlotsPayload)) : AppState :=
  match result with
  | .ok r =>
      if r.status = 200 then
        { s with freeSlotList := some r.data.slots, coupons := some r.data.coupons }
      else s
  | .error _ => s

/-- `getBookedListData` (App.js lines 69-82): on a resolved response, update
`bookedList` only when `response.status === 200`; the `.catch` is an empty
TODO. -/
def getBookedListData (s : AppState)
    (result : Except HttpError (HttpResponse (List BookedEntry))) : AppState :=
  match result with
  | .ok r => if r.status = 200 then { s with bookedList := r.data } else s
  | .error _ => s

/-- Every state-changing event the component can run: the four handlers with
their call outcomes, the two fetches, logout, and the setters the component
hands to its views (`setSelectedAppointment`, `setFormState`, `setCurrentTab`,
`setStartDate`/`setEndDate`, `refreshList`) plus the effect-driven updates of
`showSpinner` and `triggerRefresh`. -/
inductive Event where
  | claim (startDateTime : String) (slotLengthMin : Int)
      (unclaimResult : Except HttpError Unit) (claimResult : Except HttpError String)
  | book (result : Except HttpError BookResponse)
  | cancel (result : Except HttpError Unit)
  | slotFetch (result : Except HttpError (HttpResponse SlotsPayload))
  | bookedFetch (result : Except HttpError (HttpResponse (List BookedEntry)))
  | logoutEv (result : Except HttpError Unit)
  | setSelected (a : Appointment)
  | setForm (f : FormState)
  | setTab (t : Tab)
  | setStartDate (d : Nat)
  | setEndDate (d : Nat)
  | refreshList
  | refreshDone
  | setSpinner (b : Bool)
  | focusEffect

/-- One UI step: dispatch an event to the handler or setter it names. -/
def step (s : AppState) : Event → AppState
  | .claim sdt len u r => claimAppointment s sdt len u r
  | .book r => onBook s r
  | .cancel r => onCancelBooking s r
  | .slotFetch r => getSlotListData s r
  | .bookedFetch r => getBookedListData s r
  | .logoutEv r => logoutStep s r
  | .setSelected a => { s with selectedAppointment := a }
  | .setForm f => { s with formState := f }
  | .setTab t => { s with currentTab := t }
  | .setStartDate d => { s with startDate := d }
  | .setEndDate d => { s with endDate := d }
  | .refreshList => { s with triggerRefresh := true }
  | .refreshDone => { s with triggerRefresh := false }
  | .setSpinner b => { s with showSpinner := b }
  | .focusEffect => if s.focusOnList then { s with triggerRefresh := true } else s

/-- The events that end a claim hold: a successful booking, a successful
cancel (unclaim), a claim failure, a booking failure. -/
def endsHold : Event → Bool
  | .book _ => true
  | .cancel (.ok _) => true
  | .claim _ _ _ (.error _) => true
  | _ => false

/-! ### Timer model for the two `useEffect` hooks -/

/-- The two kinds of browser timers App.js creates. -/
inductive TimerKind where
  | interval (periodMs : Nat)
  | timeout (delayMs : Nat)
deriving DecidableEq, Repr

/-- One run of an effect body: the timers it creates (with fresh ids) and the
timer ids its cleanup closure will clear on teardown. -/
structure EffectRun where
  created : List (Nat × TimerKind)
  clearedOnTeardown : List Nat
deriving DecidableEq, Repr

/-- The slot-refresh effect (App.js lines 100-111): `interval =
setInterval(..., 60000)` and the cleanup `() => clearInterval(interval)`
clears exactly that id. -/
def slotRefreshEffect (nextId : Nat) : EffectRun where
  created := [(nextId, .interval 60000)]
  clearedOnTeardown := [nextId]

/-- The spinner effect (App.js lines 114-124): `let timeout = null`; when
`promiseInProgress` is false and `showSpinner` is true it calls
`setTimeout(..., 1250)` WITHOUT assigning the returned id to `timeout`, so
the cleanup `() => clearTimeout(timeout)` runs `clearTimeout(null)` and
clears nothing. -/
def spinnerEffect (promiseInProgress showSpinner : Bool) (nextId : Nat) : EffectRun where
  created :=
    if promiseInProgress then []
    else if showSpinner then [(nextId, .timeout 1250)] else []
  clearedOnTeardown := []

/-- The timers still pending after the effect's cleanup ran at teardown:
those created and not cleared. A pending timer fires. -/
def activeAfterTeardown (run : EffectRun) : List (Nat × TimerKind) :=
  run.created.filter (fun t => ¬ run.clearedOnTeardown.contains t.1)

/-! ### Theorems for the claims -/

/-- The two error strings are distinct. -/
theorem msg410_ne_msgGeneric : msg410 ≠ msgGeneric := by decide

/-- A concrete state used by witnesses. -/
def s0 : AppState := initState false 0

/-- C1: in every UI step, the claim token only becomes non-empty through a
successful claim event, which also sets the selected appointment to the
claimed slot; and every hold-ending event (successful booking, successful
cancel/unclaim, claim failure, booking failure) resets the claim token to the
empty string. -/
theorem claim_token_step_invariant (s : AppState) (e : Event) :
    ((step s e).claimToken ≠ "" →
      (step s e).claimToken = s.claimToken ∨
      ∃ sdt len u tok, e = Event.claim sdt len u (.ok tok) ∧
        (step s e).claimToken = tok ∧
        (step s e).selectedAppointment = ⟨sdt, len⟩) ∧
    (endsHold e = true → (step s e).claimToken = "") := by
  constructor
  · intro h
    cases e with
    | claim sdt len u r =>
        cases r with
        | ok tok => exact Or.inr ⟨sdt, len, u, tok, rfl, rfl, rfl⟩
        | error err => exact absurd rfl h
    | book r =>
        cases r with
        | ok rr => exact absurd rfl h
        | error err => exact absurd rfl h
    | cancel r =>
        cases r with
        | ok uu => exact absurd rfl h
        | error err => exact Or.inl rfl
    | slotFetch r =>
        cases r with
        | ok rr =>
            left
            simp only [step, getSlotListData]
            split <;> rfl
        | error err => exact Or.inl rfl
    | bookedFetch r =>
        cases r with
        | ok rr =>
            left
            simp only [step, getBookedListData]
            split <;> rfl
        | error err => exact Or.inl rfl
    | logoutEv r => exact Or.inl rfl
    | setSelected a => exact Or.inl rfl
    | setForm f => exact Or.inl rfl
    | setTab t => exact Or.inl rfl
    | setStartDate d => exact Or.inl rfl
    | setEndDate d => exact Or.inl rfl
    | refreshList => exact Or.inl rfl
    | refreshDone => exact Or.inl rfl
    | setSpinner b => exact Or.inl rfl
    | focusEffect =>
        left
        simp only [step]
        split <;> rfl
  · intro h
    cases e with
    | claim sdt len u r =>
        cases r with
        | ok tok => simp [endsHold] at h
        | error err => rfl
    | book r => cases r <;> rfl
    | cancel r =>
        cases r with
        | ok uu => rfl
        | error err => simp [endsHold] at h
    | slotFetch r => simp [endsHold] at h
    | bookedFetch r => simp [endsHold] at h
    | logoutEv r => simp [endsHold] at h
    | setSelected a => simp [endsHold] at h
    | setForm f => simp [endsHold] at h
    | setTab t => simp [endsHold] at h
    | setStartDate d => simp [endsHold] at h
    | setEndDate d => simp [endsHold] at h
    | refreshList => simp [endsHold] at h
    | refreshDone => simp [endsHold] at h
    | setSpinner b => simp [endsHold] at h
    | focusEffect => simp [endsHold] at h

/-- Witness for C1 at concrete events: a booking failure resets the token,
and a successful claim is the event that introduces one. -/
theorem claim_token_step_invariant_check :
    (step s0 (.book (.error ⟨500⟩))).claimToken = "" ∧
    ((step s0 (.claim "2020-04-01T10:00" 30 (.ok ()) (.ok "tok"))).claimToken =
        s0.claimToken ∨
      ∃ sdt len u tok,
        Event.claim "2020-04-01T10:00" 30 (.ok ()) (.ok "tok") =
          Event.claim sdt len u (.ok tok) ∧
        (step s0 (.claim "2020-04-01T10:00" 30 (.ok ()) (.ok "tok"))).claimToken = tok ∧
        (step s0 (.claim "2020-04-01T10:00" 30 (.ok ()) (.ok "tok"))).selectedAppointment =
          ⟨sdt, len⟩) :=
  ⟨(claim_token_step_invariant s0 (.book (.error ⟨500⟩))).2 rfl,
   (claim_token_step_invariant s0
      (.claim "2020-04-01T10:00" 30 (.ok ()) (.ok "tok"))).1 (by decide)⟩

/-- C2: every claim or booking failure puts the info box in the ERROR state;
its message is the 410 "slot no longer bookable" string exactly when the HTTP
status is 410, otherwise the generic "reload the page" string, and no other
message occurs. -/
theorem claim_book_failure_messages (s : AppState) (sdt : String) (len : Int)
    (u : Except HttpError Unit) (err : HttpError) :
    (claimAppointment s sdt len u (.error err)).infoboxState.state = .ERROR ∧
    (onBook s (.error err)).infoboxState.state = .ERROR ∧
    ((claimAppointment s sdt len u (.error err)).infoboxState.msg = msg410 ↔
      err.status = 410) ∧
    ((onBook s (.error err)).infoboxState.msg = msg410 ↔ err.status = 410) ∧
    (err.status ≠ 410 →
      (claimAppointment s sdt len u (.error err)).infoboxState.msg = msgGeneric ∧
      (onBook s (.error err)).infoboxState.msg = msgGeneric) ∧
    ((claimAppointment s sdt len u (.error err)).infoboxState.msg = msg410 ∨
      (claimAppointment s sdt len u (.error err)).infoboxState.msg = msgGeneric) ∧
    ((onBook s (.error err)).infoboxState.msg = msg410 ∨
      (onBook s (.error err)).infoboxState.msg = msgGeneric) := by
  by_cases h410 : err.status = 410 <;>
    simp [claimAppointment, onBook, errorMessage, h410, msg410_ne_msgGeneric,
      Ne.symm msg410_ne_msgGeneric]

/-- Witness for C2 at a failure with status 500: both operations show the
generic message in the ERROR state. -/
theorem claim_book_failure_messages_check :
    (claimAppointment s0 "t" 30 (.ok ()) (.error ⟨500⟩)).infoboxState.msg = msgGeneric ∧
    (onBook s0 (.error ⟨500⟩)).infoboxState.msg = msgGeneric :=
  (claim_book_failure_messages s0 "t" 30 (.ok ()) ⟨500⟩).2.2.2.2.1 (by decide)

/-- C3: a successful claim stores the response data as the claim token, sets
the selected appointment to the given start time and slot length, records the
start time, and puts the info box in the form-input state; a failure with
status 410 produces the "slot already taken" message. -/
theorem claimAppointment_success_spec (s : AppState) (sdt : String) (len : Int)
    (u : Except HttpError Unit) (tok : String) (err : HttpError) :
    (claimAppointment s sdt len u (.ok tok)).claimToken = tok ∧
    (claimAppointment s sdt len u (.ok tok)).selectedAppointment = ⟨sdt, len⟩ ∧
    (claimAppointment s sdt len u (.ok tok)).startDateTime = sdt ∧
    (claimAppointment s sdt len u (.ok tok)).infoboxState = ⟨.FORM_INPUT, ""⟩ ∧
    (err.status = 410 →
      (claimAppointment s sdt len u (.error err)).infoboxState = ⟨.ERROR, msg410⟩) := by
  refine ⟨rfl, rfl, rfl, rfl, fun h => ?_⟩
  simp [claimAppointment, errorMessage, h]

/-- Witness for C3 at a concrete successful claim and a concrete 410 failure. -/
theorem claimAppointment_success_spec_check :
    (claimAppointment s0 "2020-04-01T10:00" 30 (.ok ()) (.ok "tok")).claimToken = "tok" ∧
    (claimAppointment s0 "2020-04-01T10:00" 30 (.ok ()) (.error ⟨410⟩)).infoboxState =
      ⟨.ERROR, msg410⟩ :=
  ⟨(claimAppointment_success_spec s0 "2020-04-01T10:00" 30 (.ok ()) "tok" ⟨410⟩).1,
   (claimAppointment_success_spec s0 "2020-04-01T10:00" 30 (.ok ()) "tok" ⟨410⟩).2.2.2.2 rfl⟩

/-- C4: a successful booking puts the response secret in the success info box,
sets the booked appointment to the response slot time and length, clears the
claim token, and (all other fields unchanged) returns focus to the list. -/
theorem onBook_success_spec (s : AppState) (r : BookResponse) :
    onBook s (.ok r) =
      { s with
        infoboxState := ⟨.APPOINTMENT_SUCCESS, r.secret⟩
        startDateTime := r.time_slot
        bookedAppointment := ⟨r.time_slot, r.slot_length_min⟩
        claimToken := ""
        focusOnList := true } := rfl

/-- C5: the spinner timeout scheduled while `showSpinner` is true and no
promise is in flight is NOT cancelled at teardown (the cleanup clears the
never-assigned `timeout` variable, still null), while the slot-refresh
interval IS cancelled; so the timeout fires after teardown. -/
theorem spinner_timeout_survives_teardown :
    activeAfterTeardown (slotRefreshEffect 0) = [] ∧
    activeAfterTeardown (spinnerEffect false true 1) = [(1, .timeout 1250)] := by
  decide

/-- C6: cancelling a booking issues exactly one unclaim call carrying the
stored claim token, and on success resets the info box to the initial state
with empty message, clears the start time and claim token, clears the three
name/phone form fields, and returns focus to the slot list. -/
theorem onCancelBooking_success_spec (s : AppState) :
    onCancelBookingCalls s = [ApiCall.unClaimSlot s.claimToken] ∧
    onCancelBooking s (.ok ()) =
      { s with
        infoboxState := ⟨.INITIAL, ""⟩
        startDateTime := ""
        claimToken := ""
        focusOnList := true
        formState := { s.formState with firstName := "", name := "", phone := "" } } :=
  ⟨rfl, rfl⟩

/-- C7: a failed unclaim during cancel leaves the whole state unchanged, the
logout handler leaves the state unchanged whatever its outcome, and the state
produced by `claimAppointment` never depends on the outcome of its embedded
unclaim call. -/
theorem unclaim_logout_failures_silent (s : AppState) (err : HttpError)
    (sdt : String) (len : Int) (u₁ u₂ : Except HttpError Unit)
    (r : Except HttpError String) (res : Except HttpError Unit) :
    onCancelBooking s (.error err) = s ∧
    logoutStep s res = s ∧
    claimAppointment s sdt len u₁ r = claimAppointment s sdt len u₂ r :=
  ⟨rfl, rfl, rfl⟩

/-- C8: when the stored claim token is non-empty, the claim handler first
submits the old token to unclaim and then claims the new slot; when it is
empty, no unclaim call is made. -/
theorem claimAppointmentCalls_spec (s : AppState) (sdt : String) :
    (s.claimToken ≠ "" →
      claimAppointmentCalls s sdt =
        [ApiCall.unClaimSlot s.claimToken, ApiCall.claimSlot sdt]) ∧
    (s.claimToken = "" → claimAppointmentCalls s sdt = [ApiCall.claimSlot sdt]) := by
  constructor <;> intro h <;> simp [claimAppointmentCalls, h]

/-- Witness for C8 with a held token and with no token. -/
theorem claimAppointmentCalls_spec_check :
    claimAppointmentCalls { s0 with claimToken := "old" } "t" =
      [ApiCall.unClaimSlot "old", ApiCall.claimSlot "t"] ∧
    claimAppointmentCalls s0 "t" = [ApiCall.claimSlot "t"] :=
  ⟨(claimAppointmentCalls_spec { s0 with claimToken := "old" } "t").1 (by decide),
   (claimAppointmentCalls_spec s0 "t").2 rfl⟩

/-- C9: both a successful claim and a successful cancellation reset firstName,
name and phone to empty strings while keeping the office field unchanged. -/
theorem form_reset_preserves_office (s : AppState) (sdt : String) (len : Int)
    (u : Except HttpError Unit) (tok : String) :
    (claimAppointment s sdt len u (.ok tok)).formState =
      ⟨"", "", "", s.formState.office⟩ ∧
    (onCancelBooking s (.ok ())).formState = ⟨"", "", "", s.formState.office⟩ :=
  ⟨rfl, rfl⟩

/-- C10: the slot-list fetch updates `freeSlotList` and `coupons`, and the
booked-list fetch updates `bookedList`, exactly when the response status is
200; on any other status or on a rejected promise the state is unchanged. -/
theorem fetch_updates_only_on_200 (s : AppState)
    (r : HttpResponse SlotsPayload) (rb : HttpResponse (List BookedEntry))
    (e₁ e₂ : HttpError) :
    getSlotListData s (.ok r) =
      (if r.status = 200 then
        { s with freeSlotList := some r.data.slots, coupons := some r.data.coupons }
       else s) ∧
    getSlotListData s (.error e₁) = s ∧
    getBookedListData s (.ok rb) =
      (if rb.status = 200 then { s with bookedList := rb.data } else s) ∧
    getBookedListData s (.error e₂) = s :=
  ⟨rfl, rfl, rfl, rfl⟩

end Termine
